import Mathlib

/-!
# Verification of the sway-backend message-processing pipeline

Shallow embedding of the core pipeline of `app/services`:
`response_processor.py` (decomposition cascade and local fallback splitter),
`conversation_analyzer.py` (classification with safe defaults),
`therapy_prompt.py` (prompt selection) and `chat_service.py`
(request/response orchestration and streaming delivery).

Modelling conventions:
* Python values that can flow out of `json.loads` are modelled by `PyVal`;
  Python exceptions by `PyErr`.  Fallible code returns `Except PyErr _`.
* Outbound HTTP calls are oracles: an `ApiCall` (resp. `StreamApi`) argument
  supplies either a transport-level exception or the upstream status plus the
  reply content (resp. the streamed lines).  `json.loads` applied to oracle
  text is itself passed in as an oracle `String → Except Unit PyVal`
  (`.error` is a `JSONDecodeError`); theorems quantify over it, and concrete
  witnesses instantiate it consistently with Python's parser.
* All string manipulation is carried out on `String.data` (lists of
  characters) so every definition evaluates by kernel reduction.
-/

namespace Sway

/-- Python values as produced by `json.loads` (dicts are association lists;
we assume the canonical form with distinct keys, which is what `json.loads`
yields after duplicate keys are collapsed). -/
inductive PyVal where
  | none
  | bool (b : Bool)
  | int (n : Int)
  | str (s : String)
  | list (xs : List PyVal)
  | dict (fields : List (String × PyVal))

/-- Python exceptions relevant to the embedded code.  All of them derive from
`Exception`, so a bare `except Exception` handler catches every one. -/
inductive PyErr where
  | importError
  | keyError
  | typeError
  | indexError
  | attributeError
  | valueError
  | jsonDecodeError
  | exception (msg : String)
deriving Repr, DecidableEq

/-- Python truthiness (`if v:`). -/
def PyVal.truthy : PyVal → Bool
  | PyVal.none => false
  | PyVal.bool b => b
  | PyVal.int n => n ≠ 0
  | PyVal.str s => s ≠ ""
  | PyVal.list xs => ¬ xs.isEmpty
  | PyVal.dict fs => ¬ fs.isEmpty

/-- Python `v == lit` for a string literal `lit`: equal only when `v` is that
very string; values of other types compare unequal without raising. -/
def PyVal.eqStr : PyVal → String → Bool
  | PyVal.str t, s => t = s
  | _, _ => false

/-- Python subscription `v[key]` with a string key: `KeyError` on a dict
missing the key, `TypeError` on every non-dict (JSON dicts have only string
keys, lists and strings reject string indices). -/
def PyVal.getItem : PyVal → String → Except PyErr PyVal
  | PyVal.dict fields, k =>
    match fields.lookup k with
    | Option.some v => Except.ok v
    | Option.none => Except.error PyErr.keyError
  | _, _ => Except.error PyErr.typeError

/-- Python subscription `v[0]`: first element of a list (`IndexError` when
empty), first character of a string, `KeyError` on a JSON dict (string keys
only), `TypeError` otherwise. -/
def PyVal.index0 : PyVal → Except PyErr PyVal
  | PyVal.list [] => Except.error PyErr.indexError
  | PyVal.list (x :: _) => Except.ok x
  | PyVal.str s =>
    match s.data with
    | [] => Except.error PyErr.indexError
    | c :: _ => Except.ok (PyVal.str (String.mk [c]))
  | PyVal.dict _ => Except.error PyErr.keyError
  | _ => Except.error PyErr.typeError

/-- Python `v.get(key, default)`: only dicts have `.get`; any other value
raises `AttributeError` (grouped here, like every non-dict failure mode of
`.get`, as an attribute access failure). -/
def PyVal.dictGet : PyVal → String → PyVal → Except PyErr PyVal
  | PyVal.dict fields, k, dflt =>
    Except.ok (match fields.lookup k with
      | Option.some v => v
      | Option.none => dflt)
  | _, _, _ => Except.error PyErr.attributeError

/-- Python `str(v)` as used inside f-strings.  Only its totality matters in
this development (the rendered text flows into oracle-modelled requests), so
container rendering is abbreviated. -/
def PyVal.pyStr : PyVal → String
  | PyVal.none => "None"
  | PyVal.bool true => "True"
  | PyVal.bool false => "False"
  | PyVal.int n => toString n
  | PyVal.str s => s
  | PyVal.list _ => "[...]"
  | PyVal.dict _ => "..."

/-! ## ASCII string primitives

Python string operations used by the services, reimplemented over
`List Char` so that they compute by kernel reduction.  `\s` and `str.strip`
are modelled for ASCII whitespace, which covers every input exercised by the
code and the theorems below. -/

/-- The characters matched by Python's regex `\s` (ASCII range). -/
def isPySpace (c : Char) : Bool :=
  c = ' ' ∨ c = '\t' ∨ c = '\n' ∨ c = '\r' ∨ c = '\x0b' ∨ c = '\x0c'

/-- Model of `re.split(r'\n\s*\n', text)` as a single left-to-right pass
(the regex engine's behaviour): a separator starts at a `'\n'`, greedily
swallows the following whitespace run, and must contain a second `'\n'`;
greediness ends it at the *last* newline of the run, whose trailing
whitespace begins the next segment.  Whitespace runs contain no earlier
separator start, so scanning never needs to back up.

`BMode.seg acc` is inside a segment (`acc` reversed);
`BMode.sep acc run pend sawNl` is inside a whitespace run opened by a
newline: `run` is the consumed run (reversed), `pend` the consumed
whitespace after the most recent newline (reversed), `sawNl` whether a
second newline has appeared. -/
inductive BMode where
  | seg (acc : List Char)
  | sep (acc run pend : List Char) (sawNl : Bool)

/-- The pass for `re.split(r'\n\s*\n', text)`. -/
def goBlank : BMode → List Char → List String
  | BMode.seg acc, [] => [String.mk acc.reverse]
  | BMode.seg acc, c :: cs =>
    if c = '\n' then goBlank (BMode.sep acc [] [] false) cs
    else goBlank (BMode.seg (c :: acc)) cs
  | BMode.sep acc run pend sawNl, [] =>
    if sawNl then [String.mk acc.reverse, String.mk pend.reverse]
    else [String.mk (acc.reverse ++ '\n' :: run.reverse)]
  | BMode.sep acc run pend sawNl, c :: cs =>
    if c = '\n' then goBlank (BMode.sep acc ('\n' :: run) [] true) cs
    else if isPySpace c then goBlank (BMode.sep acc (c :: run) (c :: pend) sawNl) cs
    else if sawNl then String.mk acc.reverse :: goBlank (BMode.seg (c :: pend)) cs
    else goBlank (BMode.seg (c :: (run ++ '\n' :: acc))) cs

/-- Whole-string `re.split(r'\n\s*\n', s)`. -/
def pySplitBlank (s : String) : List String :=
  goBlank (BMode.seg []) s.data

/-- Model of `re.split(r'(?<=[.!?])\s+', text)` as a single pass: a
separator is a maximal whitespace run whose preceding character is `.`,
`!` or `?`.  `SMode.seg acc p` is inside a segment with `p` recording
whether the previous character is sentence punctuation; `SMode.sep acc`
is inside a separator run. -/
inductive SMode where
  | seg (acc : List Char) (p : Bool)
  | sep (acc : List Char)

/-- The pass for `re.split(r'(?<=[.!?])\s+', text)`. -/
def goSent : SMode → List Char → List String
  | SMode.seg acc _, [] => [String.mk acc.reverse]
  | SMode.seg acc p, c :: cs =>
    if p ∧ isPySpace c then goSent (SMode.sep acc) cs
    else goSent (SMode.seg (c :: acc) (c = '.' ∨ c = '!' ∨ c = '?')) cs
  | SMode.sep acc, [] => [String.mk acc.reverse, ""]
  | SMode.sep acc, c :: cs =>
    if isPySpace c then goSent (SMode.sep acc) cs
    else String.mk acc.reverse :: goSent (SMode.seg [c] (c = '.' ∨ c = '!' ∨ c = '?')) cs

/-- Whole-string `re.split(r'(?<=[.!?])\s+', s)`. -/
def pySplitSentences (s : String) : List String :=
  goSent (SMode.seg [] false) s.data

/-- Python `str.strip()` (ASCII whitespace). -/
def pyStrip (s : String) : String :=
  String.mk (((s.data.dropWhile isPySpace).reverse.dropWhile isPySpace).reverse)

/-- Python `s.startswith(pre)`. -/
def pyStartsWith (s pre : String) : Bool :=
  s.data.take pre.data.length = pre.data

/-- Python `s[n:]`. -/
def pyDrop (s : String) (n : Nat) : String :=
  String.mk (s.data.drop n)

/-- Python `s.endswith(c)` for a single character. -/
def pyEndsWithChar (s : String) (c : Char) : Bool :=
  match s.data.getLast? with
  | Option.some d => d = c
  | Option.none => false

/-- Python `s.find(c)` for a single character, as an option. -/
def pyFind (s : String) (c : Char) : Option Nat :=
  s.data.findIdx? (fun x => x = c)

/-- Python `s.rfind(c)` for a single character, as an option. -/
def pyFindLast (s : String) (c : Char) : Option Nat :=
  match s.data.reverse.findIdx? (fun x => x = c) with
  | Option.some i => Option.some (s.data.length - 1 - i)
  | Option.none => Option.none

/-- Python `s[a:b]` for `0 ≤ a` and `0 ≤ b` (empty when `b ≤ a`). -/
def pySlice (s : String) (a b : Nat) : String :=
  String.mk ((s.data.drop a).take (b - a))

/-! ## Method-1 regex of `_extract_messages_from_response`

The regex `\[\s*"[^"\\]*(?:\\.[^"\\]*)*"(?:\s*,\s*"[^"\\]*(?:\\.[^"\\]*)*")*\s*\]`
searched with `re.search` (leftmost match).  Its backtracking is
deterministic, so one forward pass decides a match at a given start: a
string item runs from its opening quote to the next quote not consumed by
a `\\.` pair (`.` does not match `'\n'`); after an item the greedy
repetition tries `\s*,\s*"..."` and, when the comma attempt fails at its
first character, falls back to `\s*\]` over the same whitespace — any
failure after a committed comma fails the whole start position. -/

/-- State of the match pass: after `[` skipping `\s*` (`openWs`); inside a
string item (`chunk`); right after a backslash (`esc`); after a complete
item skipping `\s*` before `,` or `]` (`postItem`); after a comma skipping
`\s*` before the next item (`postComma`). -/
inductive RMode where
  | openWs
  | chunk
  | esc
  | postItem
  | postComma

/-- Forward pass deciding a match of the array regex; the input starts
just after the opening `[`; returns the remainder after the matched `]`. -/
def reMatch : RMode → List Char → Option (List Char)
  | RMode.openWs, [] => Option.none
  | RMode.openWs, c :: cs =>
    if c = '"' then reMatch RMode.chunk cs
    else if isPySpace c then reMatch RMode.openWs cs
    else Option.none
  | RMode.chunk, [] => Option.none
  | RMode.chunk, c :: cs =>
    if c = '"' then reMatch RMode.postItem cs
    else if c = '\\' then reMatch RMode.esc cs
    else reMatch RMode.chunk cs
  | RMode.esc, [] => Option.none
  | RMode.esc, c :: cs =>
    if c = '\n' then Option.none else reMatch RMode.chunk cs
  | RMode.postItem, [] => Option.none
  | RMode.postItem, c :: cs =>
    if c = ']' then Option.some cs
    else if c = ',' then reMatch RMode.postComma cs
    else if isPySpace c then reMatch RMode.postItem cs
    else Option.none
  | RMode.postComma, [] => Option.none
  | RMode.postComma, c :: cs =>
    if c = '"' then reMatch RMode.chunk cs
    else if isPySpace c then reMatch RMode.postComma cs
    else Option.none

/-- Try to match the whole array regex at this exact position (it must
start with `'['`); returns the remainder after the match. -/
def arrayMatchAt (l : List Char) : Option (List Char) :=
  match l with
  | '[' :: r0 => reMatch RMode.openWs r0
  | _ => Option.none

/-- The `re.search` semantics: the match at the leftmost position where the
array regex matches, as the matched character span. -/
def method1Search : List Char → Option (List Char)
  | [] => Option.none
  | c :: cs =>
    match arrayMatchAt (c :: cs) with
    | Option.some rest =>
      Option.some ((c :: cs).take ((c :: cs).length - rest.length))
    | Option.none => method1Search cs

/-- Leftmost match of the method-1 quoted-string-array regex, as a string. -/
def method1Match (s : String) : Option String :=
  Option.map String.mk (method1Search s.data)

/-! ## `json.loads` on quoted-string arrays

Method 1 feeds its regex match to `json.loads`.  The model below is the
real JSON grammar restricted to arrays of strings (the only shape the
regex can produce): JSON whitespace is ` \t\n\r` only (narrower than
regex `\s`), string bodies may not contain raw control characters, and
only the eight simple escapes and `\uXXXX` are valid.  Surrogate-pair
`\uXXXX\uXXXX` escapes are decoded; *lone* surrogate escapes (which
CPython decodes into unpaired-surrogate strings that Lean's `String`
cannot represent) are outside the modelled fragment. -/

/-- JSON whitespace. -/
def isJsonWs (c : Char) : Bool :=
  c = ' ' ∨ c = '\t' ∨ c = '\n' ∨ c = '\r'

/-- Drop leading JSON whitespace. -/
def skipJsonWs : List Char → List Char :=
  List.dropWhile isJsonWs

/-- Hex digit value. -/
def hexVal (c : Char) : Option Nat :=
  if '0' ≤ c ∧ c ≤ '9' then Option.some (c.toNat - '0'.toNat)
  else if 'a' ≤ c ∧ c ≤ 'f' then Option.some (c.toNat - 'a'.toNat + 10)
  else if 'A' ≤ c ∧ c ≤ 'F' then Option.some (c.toNat - 'A'.toNat + 10)
  else Option.none

/-- Parser state for a JSON array of strings, after the opening `[`:
`jStart` expects the first string or `]`; `jStr cur` is inside a string
(`cur` reversed); `jEsc cur` follows a backslash; `jU cur k v` is reading
the `k`-th hex digit of a `\uXXXX` with value `v` so far; `jHi1`/`jHi2`
expect the `\` and `u` of a low-surrogate escape after a high surrogate
`hi`; `jHiU` reads its digits; `jAfter` expects `,` or `]`; `jComma`
expects the next string; `jEnd` allows only trailing whitespace. -/
inductive JMode where
  | jStart
  | jStr (cur : List Char)
  | jEsc (cur : List Char)
  | jU (cur : List Char) (k v : Nat)
  | jHi1 (cur : List Char) (hi : Nat)
  | jHi2 (cur : List Char) (hi : Nat)
  | jHiU (cur : List Char) (hi : Nat) (k v : Nat)
  | jAfter
  | jComma
  | jEnd

/-- The decode of a simple escape character, when valid. -/
def escChar : Char → Option Char
  | '"' => Option.some '"'
  | '\\' => Option.some '\\'
  | '/' => Option.some '/'
  | 'b' => Option.some '\x08'
  | 'f' => Option.some '\x0c'
  | 'n' => Option.some '\n'
  | 'r' => Option.some '\r'
  | 't' => Option.some '\t'
  | _ => Option.none

/-- One pass of `json.loads` over the characters after the opening `[` of
a string array; `acc` holds completed strings reversed. -/
def jsonRun (acc : List String) : JMode → List Char → Option (List String)
  | JMode.jEnd, [] => Option.some acc.reverse
  | _, [] => Option.none
  | JMode.jStart, c :: cs =>
    if c = '"' then jsonRun acc (JMode.jStr []) cs
    else if c = ']' then jsonRun acc JMode.jEnd cs
    else if isJsonWs c then jsonRun acc JMode.jStart cs
    else Option.none
  | JMode.jStr cur, c :: cs =>
    if c = '"' then jsonRun (String.mk cur.reverse :: acc) JMode.jAfter cs
    else if c = '\\' then jsonRun acc (JMode.jEsc cur) cs
    else if c.toNat < 0x20 then Option.none
    else jsonRun acc (JMode.jStr (c :: cur)) cs
  | JMode.jEsc cur, c :: cs =>
    if c = 'u' then jsonRun acc (JMode.jU cur 0 0) cs
    else
      match escChar c with
      | Option.some e => jsonRun acc (JMode.jStr (e :: cur)) cs
      | Option.none => Option.none
  | JMode.jU cur k v, c :: cs =>
    match hexVal c with
    | Option.none => Option.none
    | Option.some d =>
      if k < 3 then jsonRun acc (JMode.jU cur (k + 1) (v * 16 + d)) cs
      else
        let n := v * 16 + d
        if n < 0xD800 ∨ 0xE000 ≤ n then
          jsonRun acc (JMode.jStr (Char.ofNat n :: cur)) cs
        else if n < 0xDC00 then jsonRun acc (JMode.jHi1 cur n) cs
        else Option.none
  | JMode.jHi1 cur hi, c :: cs =>
    if c = '\\' then jsonRun acc (JMode.jHi2 cur hi) cs else Option.none
  | JMode.jHi2 cur hi, c :: cs =>
    if c = 'u' then jsonRun acc (JMode.jHiU cur hi 0 0) cs else Option.none
  | JMode.jHiU cur hi k v, c :: cs =>
    match hexVal c with
    | Option.none => Option.none
    | Option.some d =>
      if k < 3 then jsonRun acc (JMode.jHiU cur hi (k + 1) (v * 16 + d)) cs
      else
        let m := v * 16 + d
        if 0xDC00 ≤ m ∧ m < 0xE000 then
          jsonRun acc
            (JMode.jStr (Char.ofNat (0x10000 + (hi - 0xD800) * 0x400 + (m - 0xDC00)) :: cur)) cs
        else Option.none
  | JMode.jAfter, c :: cs =>
    if c = ',' then jsonRun acc JMode.jComma cs
    else if c = ']' then jsonRun acc JMode.jEnd cs
    else if isJsonWs c then jsonRun acc JMode.jAfter cs
    else Option.none
  | JMode.jComma, c :: cs =>
    if c = '"' then jsonRun acc (JMode.jStr []) cs
    else if isJsonWs c then jsonRun acc JMode.jComma cs
    else Option.none
  | JMode.jEnd, c :: cs =>
    if isJsonWs c then jsonRun acc JMode.jEnd cs else Option.none

/-- Model of `json.loads` restricted to arrays of strings (the only shape method 1
can feed it); any other input is a parse failure in this model, which is
sound for every call site below. -/
def jsonLoadsStrings (s : String) : Option (List String) :=
  match skipJsonWs s.data with
  | '[' :: r => jsonRun [] JMode.jStart r
  | _ => Option.none

/-! ## `ResponseProcessor` (`app/services/response_processor.py`) -/

/-- Embedding of `ResponseProcessor._combine_into_batches`.  After its two
guard returns the source executes `from math import ceil, min`, and `math`
exports no `min`, so every remaining path raises `ImportError`. -/
def combine_into_batches (segments : List String) (num_batches : Int) :
    Except PyErr (List String) :=
  if segments.isEmpty ∨ num_batches ≤ 0 then Except.ok []
  else if num_batches = 1 ∨ segments.length = 1 then
    Except.ok [String.intercalate "\n\n" segments]
  else Except.error PyErr.importError

/-- Embedding of `ResponseProcessor._split_message_with_fallback`.  The
two branches that try to merge segments into batches execute
`from math import min` before anything else; `math` exports no `min`, so
both raise `ImportError` (and `_combine_into_batches` is never reached). -/
def split_message_with_fallback (raw_message : String) : Except PyErr (List String) :=
  if raw_message = "" then Except.ok [raw_message]
  else if raw_message.length < 200 then Except.ok [raw_message]
  else
    let paragraphs := pySplitBlank raw_message
    if 2 ≤ paragraphs.length ∧ paragraphs.length ≤ 4 then
      Except.ok ((paragraphs.map pyStrip).filter (fun p => p ≠ ""))
    else if 4 < paragraphs.length then
      Except.error PyErr.importError
    else
      let sentences := pySplitSentences raw_message
      if 3 ≤ sentences.length then Except.error PyErr.importError
      else Except.ok [raw_message]

/-- Embedding of `ResponseProcessor._extract_messages_from_response`.
Method 1 (the quoted-string-array regex) is modelled in full: a leftmost
match is handed to `json.loads`; a parse failure there propagates to the
enclosing `except`, which returns `[]` — the later methods never run.
When the regex finds no match, methods 2–4 (bracket matching, code-block
extraction, pattern extraction — all guarded by the same `except`) are
modelled by the oracle `rest`, with overall extraction failure represented
by `rest` returning `[]`. -/
def extract_messages_from_response (rest : String → List String)
    (processed_text : String) : List String :=
  match method1Match processed_text with
  | Option.some m =>
    match jsonLoadsStrings m with
    | Option.some msgs => msgs
    | Option.none => []
  | Option.none => rest processed_text

/-- Outcome of one oracle-modelled non-streaming HTTP POST: either the
request itself (or the body decoding `response.json()[...]`) raised, or a
response arrived with the given status whose first choice's message content
is `content`. -/
inductive ApiCall where
  | exn
  | reply (status : Nat) (content : String)

/-- Result of `ResponseProcessor.process_response`: the returned value (or
the exception it raises), plus whether the processing-model endpoint was
actually consulted. -/
structure ProcOutput where
  result : Except PyErr (List String)
  apiCalled : Bool

/-- Embedding of `ResponseProcessor.process_response`.  The short-circuit
test at line 35 runs *outside* the `try`, so a missing `queryType` (or,
for a SIMPLE query, a missing `recommendedApproach`) key propagates as an
uncaught exception.  Inside the `try`, the user-content f-string evaluates
`analysis['conversationSummary']` then `analysis['emotionalState']` before
any request is made; a `KeyError` there is caught by the bare `except`,
which falls back to the local splitter (whose own `ImportError`, if any,
propagates — both the direct fallback call after a failed extraction and
the one in the `except` handler re-raise identically). -/
def process_response (raw_response : String) (analysis : PyVal)
    (user_message : String) (api : ApiCall) (rest : String → List String) :
    ProcOutput :=
  match analysis.getItem "queryType" with
  | Except.error e => ⟨Except.error e, false⟩
  | Except.ok qt =>
    match
      (if qt.eqStr "SIMPLE" then
        match analysis.getItem "recommendedApproach" with
        | Except.error e => Except.error e
        | Except.ok ra => Except.ok (ra.eqStr "CONCISE")
      else Except.ok false : Except PyErr Bool) with
    | Except.error e => ⟨Except.error e, false⟩
    | Except.ok true => ⟨Except.ok [raw_response], false⟩
    | Except.ok false =>
      match analysis.getItem "conversationSummary" with
      | Except.error _ => ⟨split_message_with_fallback raw_response, false⟩
      | Except.ok _ =>
        match analysis.getItem "emotionalState" with
        | Except.error _ => ⟨split_message_with_fallback raw_response, false⟩
        | Except.ok _ =>
          match api with
          | ApiCall.exn => ⟨split_message_with_fallback raw_response, true⟩
          | ApiCall.reply status content =>
            if status ≠ 200 then ⟨split_message_with_fallback raw_response, true⟩
            else
              let messages := extract_messages_from_response rest content
              if messages.isEmpty then
                ⟨split_message_with_fallback raw_response, true⟩
              else ⟨Except.ok messages, true⟩

/-! ## `ConversationAnalyzer` (`app/services/conversation_analyzer.py`)

The request payload (system prompt, up-to-5 trailing history entries, the
current message when not already last in history) only feeds the
oracle-modelled endpoint, so building it is elided; it raises nothing.
`json.loads` on the reply is an oracle `loads : String → Except Unit PyVal`
whose `.error` is a `JSONDecodeError`. -/

/-- A persisted message as seen by the services (`app/models/message.py`):
`content` and the `is_user` flag. -/
structure Msg where
  content : String
  is_user : Bool

/-- The default analysis returned when the reply contains no `{`/`}` pair
to extract (lines 128–133). -/
def defaultAnalysisNoJson : PyVal :=
  PyVal.dict
    [("queryType", PyVal.str "THERAPEUTIC"),
     ("recommendedApproach", PyVal.str "DETAILED"),
     ("emotionalState", PyVal.str "Unknown"),
     ("conversationSummary", PyVal.str "Conversation analysis failed")]

/-- The default analysis returned by the outer `except` handler
(lines 144–149). -/
def defaultAnalysisError : PyVal :=
  PyVal.dict
    [("queryType", PyVal.str "THERAPEUTIC"),
     ("recommendedApproach", PyVal.str "DETAILED"),
     ("emotionalState", PyVal.str "Unknown"),
     ("conversationSummary", PyVal.str "Conversation analysis failed due to an error")]

/-- The `try` block of `analyze_conversation`: non-success status raises;
a reply is parsed whole, then — on failure — re-parsed between the first
`{` and the last `}`; a reply with no braces returns the no-JSON default;
a failing re-parse raises `JSONDecodeError` (caught by the outer handler). -/
def analyze_try (loads : String → Except Unit PyVal) (api : ApiCall) :
    Except PyErr PyVal :=
  match api with
  | ApiCall.exn => Except.error (PyErr.exception "request failed")
  | ApiCall.reply status content =>
    if status ≠ 200 then
      Except.error (PyErr.exception "API request failed")
    else
      match loads content with
      | Except.ok v => Except.ok v
      | Except.error _ =>
        match pyFind content '\x7b', pyFindLast content '\x7d' with
        | Option.some js, Option.some je =>
          match loads (pySlice content js (je + 1)) with
          | Except.ok v => Except.ok v
          | Except.error _ => Except.error PyErr.jsonDecodeError
        | _, _ => Except.ok defaultAnalysisNoJson

/-- Embedding of `ConversationAnalyzer.analyze_conversation`: the whole
body sits in `try ... except Exception`, whose handler returns the error
default.  `message` and `history` shape only the oracle-modelled request. -/
def analyze_conversation (message : String) (history : List Msg)
    (api : ApiCall) (loads : String → Except Unit PyVal) : PyVal :=
  match analyze_try loads api with
  | Except.ok v => v
  | Except.error _ => defaultAnalysisError

/-- The internal-failure condition of one `analyze_conversation` run:
transport failure, non-success status, or a reply that parses neither
whole nor between its first `{` and last `}`.  (A braceless unparsable
reply counts: it takes the no-JSON default path.) -/
def analysisFailure (api : ApiCall) (loads : String → Except Unit PyVal) : Bool :=
  match api with
  | ApiCall.exn => true
  | ApiCall.reply status content =>
    if status ≠ 200 then true
    else
      match loads content with
      | Except.ok _ => false
      | Except.error _ =>
        match pyFind content '\x7b', pyFindLast content '\x7d' with
        | Option.some js, Option.some je =>
          match loads (pySlice content js (je + 1)) with
          | Except.ok _ => false
          | Except.error _ => true
        | _, _ => true

/-! ## `TherapyPrompt` (`app/services/therapy_prompt.py`)

The prompt texts themselves only feed oracle-modelled requests, so the
long literals are abbreviated; what matters is which accesses into the
analysis dict each selection performs, in evaluation order. -/

/-- Embedding of `TherapyPrompt.get_concise_prompt` (literal text abbreviated). -/
def get_concise_prompt : String :=
  "You are a helpful AI assistant designed to provide emotional support."

/-- Embedding of `TherapyPrompt.get_adaptive_prompt` (literal text abbreviated). -/
def get_adaptive_prompt : String :=
  "You are a compassionate AI assistant."

/-- Embedding of `TherapyPrompt.get_analyzed_prompt`: the f-string
evaluates `analysis['conversationSummary']`, `analysis['emotionalState']`
and `analysis['recommendedApproach']` in that order; a missing key raises. -/
def get_analyzed_prompt (analysis : PyVal) : Except PyErr String :=
  match analysis.getItem "conversationSummary" with
  | Except.error e => Except.error e
  | Except.ok cs =>
    match analysis.getItem "emotionalState" with
    | Except.error e => Except.error e
    | Except.ok es =>
      match analysis.getItem "recommendedApproach" with
      | Except.error e => Except.error e
      | Except.ok ra =>
        Except.ok (get_adaptive_prompt
          ++ "\n\nCONVERSATION CONTEXT:\n" ++ cs.pyStr
          ++ "\n\nUSER'S EMOTIONAL STATE:\n" ++ es.pyStr
          ++ "\n\nRECOMMENDED APPROACH:\n"
          ++ (if ra.eqStr "CONCISE" then "Keep your response brief and focused."
              else "Provide detailed therapeutic support."))

/-- Layer-2 prompt selection as written in `ChatService.process_message`
(lines 92–95) and `ChatService.stream_response` (lines 211–214):
`analysis['queryType'] == 'SIMPLE' and analysis['recommendedApproach'] ==
'CONCISE'` (short-circuit evaluation) picks the concise prompt, anything
else the analyzed prompt. -/
def select_prompt (analysis : PyVal) : Except PyErr String :=
  match analysis.getItem "queryType" with
  | Except.error e => Except.error e
  | Except.ok qt =>
    if qt.eqStr "SIMPLE" then
      match analysis.getItem "recommendedApproach" with
      | Except.error e => Except.error e
      | Except.ok ra =>
        if ra.eqStr "CONCISE" then Except.ok get_concise_prompt
        else get_analyzed_prompt analysis
    else get_analyzed_prompt analysis

/-! ## `ChatService` (`app/services/chat_service.py`)

The database is modelled by the trace of records the service persists
(committed `Message` rows, in commit order); the delivery sink by the trace
of events sent over the websocket.  Sink sends and database commits are
assumed not to fail themselves. -/

/-- The fixed apology persisted on failure (lines 130 and 311). -/
def apology : String :=
  "Sorry, there was an error processing your message. Please try again."

/-- A committed `Message` row: content, `sender_id`, `is_user` flag and the
identifier assigned by the database. -/
structure Stored where
  content : String
  sender_id : String
  is_user : Bool
  id : String

/-- Result of `ChatService.process_message`: the returned value (contents
of the returned `Message` rows, or the exception raised) together with
every row committed along the way. -/
structure ChatOutput where
  result : Except PyErr (List String)
  persisted : List Stored

/-- Embedding of `ChatService.process_message`.  The conversation-existence
check raises `ValueError` *before* the `try`; the user message is persisted
next; then analysis (self-healing), prompt selection, the generation call
and decomposition run inside `try ... except Exception`, whose handler
persists and returns the single apology message.  Oracles: `aApi`/`aLoads`
drive the analyzer, `rawApi` the generation call, `pApi`/`pRest` the
decomposer.  `user_id`/`ai_ids` are the database-assigned identifiers
(`ai_ids i` for the i-th assistant row). -/
def process_message (conversationExists : Bool) (content sender_id : String)
    (history : List Msg) (aApi : ApiCall) (aLoads : String → Except Unit PyVal)
    (rawApi : ApiCall) (pApi : ApiCall) (pRest : String → List String)
    (user_id : String) (ai_ids : Nat → String) : ChatOutput :=
  if ¬ conversationExists then ⟨Except.error PyErr.valueError, []⟩
  else
    let userRow : Stored := ⟨content, sender_id, true, user_id⟩
    let failOut : ChatOutput :=
      ⟨Except.ok [apology], [userRow, ⟨apology, "AI", false, ai_ids 0⟩]⟩
    let analysis := analyze_conversation content history aApi aLoads
    match select_prompt analysis with
    | Except.error _ => failOut
    | Except.ok _ =>
      match rawApi with
      | ApiCall.exn => failOut
      | ApiCall.reply status body =>
        if status ≠ 200 then failOut
        else
          match (process_response body analysis content pApi pRest).result with
          | Except.error _ => failOut
          | Except.ok msgs =>
            ⟨Except.ok msgs,
             userRow :: (msgs.enum.map
               (fun p => ⟨p.2, "AI", false, ai_ids p.1⟩))⟩

/-- A streaming sink event, as sent over the websocket: `chunk` and
`complete` carry a `"type"` tag in the source; failure payloads are bare
`{"error": ...}` objects. -/
inductive SinkEvent where
  | chunk (content : String)
  | complete (message_id : String)
  | error (msg : String)

/-- Outcome of the oracle-modelled streaming POST: a transport-level
exception, or a response with a status and the yielded lines; `aborted`
means the line iterator raises after yielding them all (a mid-stream
transport failure), which is irrelevant when the loop exits at `[DONE]`. -/
inductive StreamApi where
  | exn
  | reply (status : Nat) (lines : List String) (aborted : Bool)

/-- Mutable state of the streaming loop: the sentence buffer, the
accumulated full response, and the events sent so far. -/
structure LoopState where
  buffer : String
  full : String
  events : List SinkEvent

/-- Evaluation of `parsed["choices"][0]["delta"]` (line 266). -/
def parsed_delta (parsed : PyVal) : Except PyErr PyVal :=
  match parsed.getItem "choices" with
  | Except.error e => Except.error e
  | Except.ok choices =>
    match choices.index0 with
    | Except.error e => Except.error e
    | Except.ok c0 => c0.getItem "delta"

/-- Evaluation of `parsed["choices"][0]["delta"].get("content", "")` (line 266). -/
def delta_content (parsed : PyVal) : Except PyErr PyVal :=
  match parsed_delta parsed with
  | Except.error e => Except.error e
  | Except.ok delta => delta.dictGet "content" (PyVal.str "")

/-- Whether `buffer` ends with sentence punctuation or a newline (line 279). -/
def sentenceBoundary (s : String) : Bool :=
  pyEndsWithChar s '.' ∨ pyEndsWithChar s '!' ∨ pyEndsWithChar s '?'
    ∨ pyEndsWithChar s '\n'

/-- One iteration of the streaming loop. -/
inductive StepOut where
  | next (st : LoopState)
  | stop (st : LoopState)
  | err (e : PyErr) (st : LoopState)

/-- Embedding of one iteration of the `async for line` loop (lines
258–283): non-`data: ` lines are skipped; `[DONE]` breaks; a line whose
payload fails `json.loads` is logged and skipped (only `JSONDecodeError`
is caught); a malformed event shape or a truthy non-string delta content
raises out of the loop; a truthy string content is appended to `buffer`
and `full_response` and sent as one `chunk` event, after which the buffer
resets at a sentence boundary or past 100 characters. -/
def process_stream_line (loads : String → Except Unit PyVal)
    (st : LoopState) (line : String) : StepOut :=
  if pyStartsWith line "data: " then
    let data := pyDrop line 6
    if data = "[DONE]" then StepOut.stop st
    else
      match loads data with
      | Except.error _ => StepOut.next st
      | Except.ok parsed =>
        match delta_content parsed with
        | Except.error e => StepOut.err e st
        | Except.ok contentVal =>
          if contentVal.truthy then
            match contentVal with
            | PyVal.str c =>
              let buf := st.buffer ++ c
              StepOut.next
                ⟨if sentenceBoundary buf ∨ 100 < buf.length then "" else buf,
                 st.full ++ c, st.events ++ [SinkEvent.chunk c]⟩
            | _ => StepOut.err PyErr.typeError st
          else StepOut.next st
  else StepOut.next st

/-- Terminal state of the streaming loop. -/
inductive LoopResult where
  | done (st : LoopState) (broke : Bool)
  | failed (e : PyErr) (st : LoopState)

/-- The streaming loop over the yielded lines. -/
def run_lines (loads : String → Except Unit PyVal) (st : LoopState) :
    List String → LoopResult
  | [] => LoopResult.done st false
  | l :: ls =>
    match process_stream_line loads st l with
    | StepOut.next st2 => run_lines loads st2 ls
    | StepOut.stop st2 => LoopResult.done st2 true
    | StepOut.err e st2 => LoopResult.failed e st2

/-- Result of `ChatService.stream_response`: the events sent to the sink,
in order, and the rows committed to the database, in order. -/
structure StreamOutput where
  events : List SinkEvent
  persisted : List Stored

/-- Embedding of `ChatService.stream_response`.  The user message is
persisted before the `try`.  A non-success upstream status sends a status
error event and returns — persisting nothing further.  Otherwise the loop
runs; on normal exit (by `[DONE]` or end of stream without the iterator
raising) the concatenated text is persisted as one assistant message and a
`complete` event carries its id.  Any exception — analysis-prompt key
errors, a malformed event shape, a mid-stream iterator failure — reaches
the outer `except`, which sends a bare error event and persists the
apology. -/
def stream_response (content sender_id : String) (history : List Msg)
    (aApi : ApiCall) (aLoads : String → Except Unit PyVal)
    (sApi : StreamApi) (loads : String → Except Unit PyVal)
    (user_id ai_id error_id : String) : StreamOutput :=
  let userRow : Stored := ⟨content, sender_id, true, user_id⟩
  let failOut : List SinkEvent → StreamOutput := fun evs =>
    ⟨evs ++ [SinkEvent.error "Sorry, there was an error processing your message."],
     [userRow, ⟨apology, "AI", false, error_id⟩]⟩
  let analysis := analyze_conversation content history aApi aLoads
  match select_prompt analysis with
  | Except.error _ => failOut []
  | Except.ok _ =>
    match sApi with
    | StreamApi.exn => failOut []
    | StreamApi.reply status lines aborted =>
      if status ≠ 200 then
        ⟨[SinkEvent.error ("API request failed with status: " ++ toString status)],
         [userRow]⟩
      else
        match run_lines loads ⟨"", "", []⟩ lines with
        | LoopResult.failed _ st => failOut st.events
        | LoopResult.done st broke =>
          if ¬ broke ∧ aborted then failOut st.events
          else
            ⟨st.events ++ [SinkEvent.complete ai_id],
             [userRow, ⟨st.full, "AI", false, ai_id⟩]⟩

/-! ## Concrete inputs used by counterexamples and witnesses -/

/-- A 32-character paragraph. -/
def fillerParagraph : String := "This is a filler paragraph text."

/-- Six blank-line-separated copies of the filler paragraph: 202 characters,
over the 200-character threshold, with six paragraphs. -/
def sixParagraphText : String :=
  String.intercalate "\n\n"
    [fillerParagraph, fillerParagraph, fillerParagraph,
     fillerParagraph, fillerParagraph, fillerParagraph]

/-- A minimal analysis dict classifying the query as SIMPLE/CONCISE. -/
def simpleConciseAnalysis : PyVal :=
  PyVal.dict
    [("queryType", PyVal.str "SIMPLE"),
     ("recommendedApproach", PyVal.str "CONCISE")]

/-- A `json.loads` oracle that parses nothing. -/
def noLoads : String → Except Unit PyVal := fun _ => Except.error ()

/-- A `rest` oracle under which methods 2–4 of the extraction cascade
yield nothing. -/
def noRest : String → List String := fun _ => []

/-- The first streamed payload of the spec's streaming scenario. -/
def c8data1 : String := "\x7b\"choices\":[\x7b\"delta\":\x7b\"content\":\"Hi\"\x7d\x7d]\x7d"

/-- The second streamed payload of the spec's streaming scenario. -/
def c8data2 : String := "\x7b\"choices\":[\x7b\"delta\":\x7b\"content\":\" there\"\x7d\x7d]\x7d"

/-- The `json.loads` parse of `c8data1`. -/
def c8parsed1 : PyVal :=
  PyVal.dict
    [("choices", PyVal.list [PyVal.dict [("delta", PyVal.dict [("content", PyVal.str "Hi")])]])]

/-- The `json.loads` parse of `c8data2`. -/
def c8parsed2 : PyVal :=
  PyVal.dict
    [("choices", PyVal.list [PyVal.dict [("delta", PyVal.dict [("content", PyVal.str " there")])]])]

/-- A `json.loads` oracle agreeing with Python's parser on the two
scenario payloads. -/
def c8loads : String → Except Unit PyVal := fun s =>
  if s = c8data1 then Except.ok c8parsed1
  else if s = c8data2 then Except.ok c8parsed2
  else Except.error ()

/-- A processing-model reply whose leftmost method-1 regex match is the
malformed array `["\x"]` (its `\x` escape is invalid JSON) while a
well-formed quoted-string array `["good"]` appears later in the reply. -/
def c9reply : String := "[\"\\x\"] [\"good\"]"

/-- A `rest` oracle standing for what methods 2–4 would have extracted
(e.g. from a fenced code block) had they been consulted. -/
def c9rest : String → List String := fun _ => ["from a fenced code block"]

/-- A reply holding a well-formed quoted array and a fenced code block
with different content. -/
def c9witnessText : String := "Sure: [\"a\", \"b\"] ```json\n[\"z\"]\n```"

/-- A streamed payload whose delta has no `content` field. -/
def c10data : String := "\x7b\"choices\":[\x7b\"delta\":\x7b\x7d\x7d]\x7d"

/-- The `json.loads` parse of `c10data`. -/
def c10parsed : PyVal :=
  PyVal.dict [("choices", PyVal.list [PyVal.dict [("delta", PyVal.dict [])]])]

/-- A `json.loads` oracle agreeing with Python's parser on `c10data`. -/
def c10loads : String → Except Unit PyVal := fun s =>
  if s = c10data then Except.ok c10parsed else Except.error ()

/-- The initial state of the streaming loop. -/
def st0 : LoopState := ⟨"", "", []⟩

/-! ## Claim theorems -/

theorem fallback_short (raw : String) (h1 : raw ≠ "") (h2 : raw.length < 200) :
    split_message_with_fallback raw = Except.ok [raw] := by
  unfold split_message_with_fallback
  rw [if_neg h1, if_pos h2]

set_option maxRecDepth 100000 in
/-- C1: the spec says the local heuristic fallback splitter never fails and
merges more than 4 blank-line-separated paragraphs into at most 4 batches.
The code disagrees with its own intent: on a 202-character text with six
paragraphs the merge branch executes `from math import min`, and `math`
exports no `min`, so the splitter raises `ImportError` instead of merging
(the single-paragraph sentence branch raises identically). -/
theorem split_fallback_import_bug :
    split_message_with_fallback sixParagraphText = Except.error PyErr.importError := by
  rfl

/-- C5: short-circuit identity — whenever the analysis carries
`queryType = "SIMPLE"` and `recommendedApproach = "CONCISE"`, the
decomposer returns exactly `[rawText]`, with no processing-endpoint call,
for every raw text, user message and endpoint behaviour. -/
theorem process_response_short_circuit (raw user : String) (analysis : PyVal)
    (api : ApiCall) (rest : String → List String)
    (hq : analysis.getItem "queryType" = Except.ok (PyVal.str "SIMPLE"))
    (hr : analysis.getItem "recommendedApproach" = Except.ok (PyVal.str "CONCISE")) :
    process_response raw analysis user api rest = ⟨Except.ok [raw], false⟩ := by
  unfold process_response
  rw [hq, hr]
  simp [PyVal.eqStr]

/-- Witness for C5 at a concrete SIMPLE/CONCISE analysis. -/
theorem process_response_short_circuit_witness :
    process_response "ok" simpleConciseAnalysis "hi" ApiCall.exn noRest
      = ⟨Except.ok ["ok"], false⟩ :=
  process_response_short_circuit "ok" "hi" simpleConciseAnalysis ApiCall.exn noRest rfl rfl

/-- C2 counterexample: on the empty raw text (explicitly included in the
claim) with the analyzer's default THERAPEUTIC/DETAILED verdict and a
failing processing call, the decomposer returns `[""]` — a batch whose
single element is the empty string, refuting "a non-empty ordered list of
*non-empty* strings ... including empty string". -/
theorem process_response_empty_string_cex :
    (process_response "" defaultAnalysisError "" ApiCall.exn noRest).result
      = Except.ok [""] := by
  rfl

/-- C2 (amended): when the analysis dict carries its two enum keys and the
raw text is non-empty and under 200 characters, a decomposition whose
processing call fails returns exactly the batch `[rawText]` — one element,
non-empty.  (Unconditionally the claim is false: the batch element can be
empty — see the counterexample — the extraction path can return more than
4 or empty strings, and the fallback can raise `ImportError`.) -/
theorem process_response_short_text (raw user : String) (analysis : PyVal)
    (rest : String → List String)
    (hq : ∃ v, analysis.getItem "queryType" = Except.ok v)
    (hr : ∃ v, analysis.getItem "recommendedApproach" = Except.ok v)
    (hne : raw ≠ "") (hlen : raw.length < 200) :
    (process_response raw analysis user ApiCall.exn rest).result = Except.ok [raw] := by
  obtain ⟨qv, hq⟩ := hq
  obtain ⟨rv, hr⟩ := hr
  unfold process_response
  rw [hq]
  by_cases hs : qv.eqStr "SIMPLE"
  · rw [hr]
    simp only [hs, if_true]
    by_cases hc : rv.eqStr "CONCISE"
    · simp [hc]
    · simp only [hc, if_false]
      cases analysis.getItem "conversationSummary" with
      | error e => simp [fallback_short raw hne hlen]
      | ok v =>
        cases analysis.getItem "emotionalState" with
        | error e => simp [fallback_short raw hne hlen]
        | ok w => simp [fallback_short raw hne hlen]
  · simp only [hs, if_false]
    cases analysis.getItem "conversationSummary" with
    | error e => simp [fallback_short raw hne hlen]
    | ok v =>
      cases analysis.getItem "emotionalState" with
      | error e => simp [fallback_short raw hne hlen]
      | ok w => simp [fallback_short raw hne hlen]

/-- C3: `analyze_conversation` never raises (its Lean embedding is total,
the explicit `try`/`except` wrapper absorbing every `PyErr`), and on every
internal failure — transport error, non-success status, or a reply that
parses neither whole nor between its braces — it returns one of the two
safe defaults, both carrying `queryType = THERAPEUTIC` and
`recommendedApproach = DETAILED`, for every message, history and parser
behaviour. -/
theorem analyzer_safe_default (msg : String) (hist : List Msg) (api : ApiCall)
    (loads : String → Except Unit PyVal)
    (hfail : analysisFailure api loads = true) :
    (analyze_conversation msg hist api loads = defaultAnalysisNoJson ∨
      analyze_conversation msg hist api loads = defaultAnalysisError) ∧
    (analyze_conversation msg hist api loads).getItem "queryType"
      = Except.ok (PyVal.str "THERAPEUTIC") ∧
    (analyze_conversation msg hist api loads).getItem "recommendedApproach"
      = Except.ok (PyVal.str "DETAILED") := by
  have hd : analyze_conversation msg hist api loads = defaultAnalysisNoJson ∨
      analyze_conversation msg hist api loads = defaultAnalysisError := by
    cases api with
    | exn => exact Or.inr rfl
    | reply status content =>
      unfold analysisFailure at hfail
      unfold analyze_conversation analyze_try
      dsimp only at hfail ⊢
      by_cases hs : status = 200
      · subst hs
        rw [if_neg (by simp)] at hfail
        rw [if_neg (by simp)]
        cases hl : loads content with
        | ok v => rw [hl] at hfail; exact Bool.noConfusion hfail
        | error e =>
          rw [hl] at hfail
          dsimp only at hfail ⊢
          cases hf : pyFind content '\x7b' with
          | none => exact Or.inl rfl
          | some js =>
            rw [hf] at hfail
            cases hg : pyFindLast content '\x7d' with
            | none => exact Or.inl rfl
            | some je =>
              rw [hg] at hfail
              dsimp only at hfail ⊢
              cases hl2 : loads (pySlice content js (je + 1)) with
              | ok v => rw [hl2] at hfail; exact Bool.noConfusion hfail
              | error e2 => exact Or.inr rfl
      · rw [if_pos hs] at hfail ⊢
        exact Or.inr rfl
  refine ⟨hd, ?_, ?_⟩ <;> rcases hd with h | h <;> rw [h] <;> rfl

/-- Witness for C3 at a concrete transport failure. -/
theorem analyzer_safe_default_witness :
    analysisFailure ApiCall.exn noLoads = true ∧
    (analyze_conversation "hello" [] ApiCall.exn noLoads = defaultAnalysisNoJson ∨
      analyze_conversation "hello" [] ApiCall.exn noLoads = defaultAnalysisError) ∧
    (analyze_conversation "hello" [] ApiCall.exn noLoads).getItem "queryType"
      = Except.ok (PyVal.str "THERAPEUTIC") ∧
    (analyze_conversation "hello" [] ApiCall.exn noLoads).getItem "recommendedApproach"
      = Except.ok (PyVal.str "DETAILED") :=
  ⟨rfl, analyzer_safe_default "hello" [] ApiCall.exn noLoads rfl⟩

/-- An analysis object with out-of-range enum fields, as a well-formed JSON
reply from the completion endpoint could produce it. -/
def weirdAnalysis : PyVal :=
  PyVal.dict
    [("queryType", PyVal.str "WEIRD"),
     ("recommendedApproach", PyVal.str "SOMETIMES")]

/-- A model reply that is well-formed JSON carrying out-of-range enum
fields; Python's `json.loads` parses it to exactly `weirdAnalysis`. -/
def weirdReply : String :=
  "\x7b\"queryType\": \"WEIRD\", \"recommendedApproach\": \"SOMETIMES\"\x7d"

/-- A `json.loads` oracle agreeing with Python's parser on `weirdReply`. -/
def weirdLoads : String → Except Unit PyVal := fun s =>
  if s = weirdReply then Except.ok weirdAnalysis else Except.error ()

/-- C4 counterexample: when the reply parses as JSON, the analyzer returns
it verbatim with no validation, so a 200-status reply carrying
`queryType = "WEIRD"` yields an AnalysisResult whose `queryType` is neither
`SIMPLE` nor `THERAPEUTIC`, refuting the claimed enum invariant. -/
theorem analyzer_unvalidated_cex :
    analyze_conversation "hi" [] (ApiCall.reply 200 weirdReply) weirdLoads
      = weirdAnalysis
    ∧ (analyze_conversation "hi" [] (ApiCall.reply 200 weirdReply) weirdLoads).getItem
        "queryType" = Except.ok (PyVal.str "WEIRD")
    ∧ ("WEIRD" ≠ "SIMPLE" ∧ "WEIRD" ≠ "THERAPEUTIC") :=
  ⟨rfl, rfl, by decide⟩

/-- C4 (amended): every AnalysisResult the analyzer returns is either one
of the two safe defaults — whose enum fields are `THERAPEUTIC`/`DETAILED`
— or a value produced verbatim by `json.loads` on (part of) the reply, so
the claimed enum invariant holds only when the reply itself satisfies it. -/
theorem analyzer_parse_or_default (msg : String) (hist : List Msg)
    (api : ApiCall) (loads : String → Except Unit PyVal) :
    analyze_conversation msg hist api loads = defaultAnalysisNoJson
    ∨ analyze_conversation msg hist api loads = defaultAnalysisError
    ∨ ∃ t, loads t = Except.ok (analyze_conversation msg hist api loads) := by
  cases api with
  | exn => exact Or.inr (Or.inl rfl)
  | reply status content =>
    unfold analyze_conversation analyze_try
    dsimp only
    by_cases hs : status = 200
    · subst hs
      rw [if_neg (by simp)]
      cases hl : loads content with
      | ok v => exact Or.inr (Or.inr ⟨content, by rw [hl]⟩)
      | error e =>
        dsimp only
        cases hf : pyFind content '\x7b' with
        | none => exact Or.inl rfl
        | some js =>
          cases hg : pyFindLast content '\x7d' with
          | none => exact Or.inl rfl
          | some je =>
            dsimp only
            cases hl2 : loads (pySlice content js (je + 1)) with
            | ok v => exact Or.inr (Or.inr ⟨pySlice content js (je + 1), hl2⟩)
            | error e2 => exact Or.inr (Or.inl rfl)
    · rw [if_pos hs]
      exact Or.inr (Or.inl rfl)

/-- C6: if the completion endpoint answers the non-streaming generation
call with HTTP 500, `process_message` returns the single-element apology
batch and persists exactly the user message and that apology — no
exception escapes — for every message, history, analyzer behaviour and
decomposer behaviour. -/
theorem process_message_http500 (content sender : String) (hist : List Msg)
    (aApi : ApiCall) (aLoads : String → Except Unit PyVal) (body : String)
    (pApi : ApiCall) (pRest : String → List String)
    (uid : String) (ids : Nat → String) :
    process_message true content sender hist aApi aLoads
        (ApiCall.reply 500 body) pApi pRest uid ids
      = ⟨Except.ok [apology],
         [⟨content, sender, true, uid⟩, ⟨apology, "AI", false, ids 0⟩]⟩ := by
  cases hsel : select_prompt (analyze_conversation content hist aApi aLoads) with
  | error e => simp [process_message, hsel]
  | ok p => simp [process_message, hsel]

/-- Witness for the amended C2 at a concrete short raw text. -/
theorem process_response_short_text_witness :
    (process_response "hello" defaultAnalysisError "hi" ApiCall.exn noRest).result
        = Except.ok ["hello"]
      ∧ "hello" ≠ "" := by
  refine ⟨?_, by decide⟩
  exact process_response_short_text "hello" "hi" defaultAnalysisError noRest
    ⟨PyVal.str "THERAPEUTIC", rfl⟩ ⟨PyVal.str "DETAILED", rfl⟩ (by decide) (by decide)

/-- C7 counterexample: when the upstream streaming request answers with a
non-success status (here 500), the handler sends the status error event and
returns at line 252 — no assistant message, in particular no apology, is
ever persisted for this invocation, refuting "on every failure ... a fixed
apology text is persisted as the assistant message". -/
theorem stream_status_no_persist_cex :
    stream_response "hello" "u1" [] ApiCall.exn noLoads
        (StreamApi.reply 500 [] false) noLoads "uid" "mid" "eid"
      = ⟨[SinkEvent.error "API request failed with status: 500"],
         [⟨"hello", "u1", true, "uid"⟩]⟩ := by
  rfl

/-- C7 (amended): a failure during streaming always yields an error event
on the sink, but the persisted outcome splits: on an upstream non-success
status the handler returns after the status error event *without
persisting an assistant message*; on a transport exception, a mid-loop
failure, or an iterator abort after the yielded lines, the bare apology
error event is sent and the fixed apology text is persisted as the
assistant message. -/
theorem stream_failure_terminal (content sender : String) (hist : List Msg)
    (aApi : ApiCall) (aLoads loads : String → Except Unit PyVal)
    (status : Nat) (lines : List String) (aborted : Bool)
    (uid aid eid p : String)
    (hsel : select_prompt (analyze_conversation content hist aApi aLoads)
      = Except.ok p) :
    (status ≠ 200 →
      stream_response content sender hist aApi aLoads
          (StreamApi.reply status lines aborted) loads uid aid eid
        = ⟨[SinkEvent.error ("API request failed with status: " ++ toString status)],
           [⟨content, sender, true, uid⟩]⟩)
    ∧ (stream_response content sender hist aApi aLoads StreamApi.exn loads uid aid eid
        = ⟨[SinkEvent.error "Sorry, there was an error processing your message."],
           [⟨content, sender, true, uid⟩, ⟨apology, "AI", false, eid⟩]⟩)
    ∧ (∀ e st, run_lines loads st0 lines = LoopResult.failed e st → status = 200 →
        stream_response content sender hist aApi aLoads
            (StreamApi.reply status lines aborted) loads uid aid eid
          = ⟨st.events ++ [SinkEvent.error "Sorry, there was an error processing your message."],
             [⟨content, sender, true, uid⟩, ⟨apology, "AI", false, eid⟩]⟩)
    ∧ (∀ st, run_lines loads st0 lines = LoopResult.done st false → aborted = true →
        status = 200 →
        stream_response content sender hist aApi aLoads
            (StreamApi.reply status lines aborted) loads uid aid eid
          = ⟨st.events ++ [SinkEvent.error "Sorry, there was an error processing your message."],
             [⟨content, sender, true, uid⟩, ⟨apology, "AI", false, eid⟩]⟩) := by
  refine ⟨?_, ?_, ?_, ?_⟩
  · intro hs
    unfold stream_response
    dsimp only
    rw [hsel]
    dsimp only
    rw [if_pos hs]
  · unfold stream_response
    dsimp only
    rw [hsel]
    simp
  · intro e st hrun h200
    subst h200
    unfold stream_response
    dsimp only
    rw [hsel]
    dsimp only
    rw [if_neg (by simp)]
    rw [show ({ buffer := "", full := "", events := [] } : LoopState) = st0 from rfl, hrun]
  · intro st hrun hab h200
    subst h200
    subst hab
    unfold stream_response
    dsimp only
    rw [hsel]
    dsimp only
    rw [if_neg (by simp)]
    rw [show ({ buffer := "", full := "", events := [] } : LoopState) = st0 from rfl, hrun]
    dsimp only
    rw [if_pos (by simp)]

/-- Witness for the amended C7 at a concrete non-success status. -/
theorem stream_failure_terminal_witness :
    stream_response "x" "u" [] ApiCall.exn noLoads (StreamApi.reply 503 [] false)
        noLoads "uid" "aid" "eid"
      = ⟨[SinkEvent.error "API request failed with status: 503"],
         [⟨"x", "u", true, "uid"⟩]⟩ :=
  (stream_failure_terminal "x" "u" [] ApiCall.exn noLoads noLoads 503 [] false
    "uid" "aid" "eid" _ rfl).1 (by decide)

/-- C8: the spec's streaming scenario — the upstream stream yields the two
`Hi` / ` there` deltas and the `[DONE]` sentinel — produces exactly two
`chunk` events with those contents in order, then one `complete` event
carrying the identifier of the persisted assistant message, whose content
is the concatenation `"Hi there"`. -/
theorem stream_two_chunks_then_complete :
    stream_response "msg" "u" [] ApiCall.exn noLoads
        (StreamApi.reply 200 ["data: " ++ c8data1, "data: " ++ c8data2, "data: [DONE]"] false)
        c8loads "uid" "mid" "eid"
      = ⟨[SinkEvent.chunk "Hi", SinkEvent.chunk " there", SinkEvent.complete "mid"],
         [⟨"msg", "u", true, "uid"⟩, ⟨"Hi there", "AI", false, "mid"⟩]⟩ := by
  rfl

/-- C9 counterexample: `c9reply` contains the well-formed quoted-string
array `["good"]` (shown both by literal decomposition and by parsing it),
yet the leftmost method-1 regex match is the earlier malformed `["\x"]`,
whose `json.loads` failure aborts the whole cascade through the enclosing
`except` — the extraction returns `[]`, not the method-1 match, and the
fenced-code-block method is never consulted. -/
theorem extraction_cascade_cex :
    c9reply = "[\"\\x\"] " ++ "[\"good\"]"
    ∧ jsonLoadsStrings "[\"good\"]" = Option.some ["good"]
    ∧ method1Match c9reply = Option.some "[\"\\x\"]"
    ∧ extract_messages_from_response c9rest c9reply = [] :=
  ⟨rfl, rfl, rfl, rfl⟩

/-- C9 (amended): whenever the *leftmost* method-1 regex match of the
reply is itself a well-formed JSON string array, its parsed contents are
used verbatim as the batch, whatever the rest of the reply holds — in
particular a fenced code block with different content is never consulted
(the conclusion holds for every behaviour `rest` of methods 2–4). -/
theorem extraction_method1_first (rest : String → List String) (text m : String)
    (msgs : List String) (hm : method1Match text = Option.some m)
    (hj : jsonLoadsStrings m = Option.some msgs) :
    extract_messages_from_response rest text = msgs := by
  unfold extract_messages_from_response
  rw [hm]
  dsimp only
  rw [hj]

/-- Witness for the amended C9 on a reply that also carries a fenced code
block with different content. -/
theorem extraction_method1_first_witness :
    extract_messages_from_response (fun _ => ["z"]) c9witnessText = ["a", "b"] :=
  extraction_method1_first (fun _ => ["z"]) c9witnessText "[\"a\", \"b\"]" ["a", "b"] rfl rfl

theorem data_line_starts (data : String) :
    pyStartsWith ("data: " ++ data) "data: " = true := by
  have h : ("data: " ++ data).data.take "data: ".data.length = "data: ".data := by
    rw [String.data_append]
    exact List.take_left _ _
  simp [pyStartsWith, h]

theorem data_line_drop (data : String) : pyDrop ("data: " ++ data) 6 = data := by
  have h6 : ("data: ".data).length = 6 := rfl
  have h : ("data: " ++ data).data.drop 6 = data.data := by
    rw [String.data_append, ← h6]
    exact List.drop_left _ _
  unfold pyDrop
  rw [h]

/-- C10: per-line chunk-delivery characterisation.  For a `data: ` line
whose payload is not the sentinel, parses successfully, and whose
`choices[0].delta` is a dict `d`: a present non-empty string `content`
yields exactly one `chunk` event carrying it (and extends the buffer and
the full response); a missing `content` and an empty-string `content`
leave the loop state — events included — exactly unchanged; and
conversely, any step that changed the event list had a present non-empty
string `content`.  (A present but truthy non-string `content` raises
`TypeError` before any send, so it too produces no chunk event.) -/
theorem stream_chunk_iff (loads : String → Except Unit PyVal) (st : LoopState)
    (data : String) (parsed : PyVal) (d : List (String × PyVal))
    (hne : data ≠ "[DONE]")
    (hp : loads data = Except.ok parsed)
    (hd : parsed_delta parsed = Except.ok (PyVal.dict d)) :
    (∀ c, d.lookup "content" = Option.some (PyVal.str c) → c ≠ "" →
      process_stream_line loads st ("data: " ++ data)
        = StepOut.next
            ⟨if sentenceBoundary (st.buffer ++ c) ∨ 100 < (st.buffer ++ c).length then ""
              else st.buffer ++ c,
             st.full ++ c, st.events ++ [SinkEvent.chunk c]⟩)
    ∧ (d.lookup "content" = Option.none →
        process_stream_line loads st ("data: " ++ data) = StepOut.next st)
    ∧ (d.lookup "content" = Option.some (PyVal.str "") →
        process_stream_line loads st ("data: " ++ data) = StepOut.next st)
    ∧ (∀ st2, process_stream_line loads st ("data: " ++ data) = StepOut.next st2 →
        st2.events ≠ st.events →
        ∃ c, d.lookup "content" = Option.some (PyVal.str c) ∧ c ≠ "") := by
  have hline : process_stream_line loads st ("data: " ++ data)
      = match (PyVal.dict d).dictGet "content" (PyVal.str "") with
        | Except.error e => StepOut.err e st
        | Except.ok contentVal =>
          if contentVal.truthy then
            match contentVal with
            | PyVal.str c =>
              StepOut.next
                ⟨if sentenceBoundary (st.buffer ++ c) ∨ 100 < (st.buffer ++ c).length then ""
                  else st.buffer ++ c,
                 st.full ++ c, st.events ++ [SinkEvent.chunk c]⟩
            | _ => StepOut.err PyErr.typeError st
          else StepOut.next st := by
    unfold process_stream_line
    rw [data_line_starts, data_line_drop]
    rw [if_pos rfl, if_neg hne, hp]
    dsimp only
    unfold delta_content
    rw [hd]
  refine ⟨?_, ?_, ?_, ?_⟩
  · intro c hc hne2
    rw [hline]
    unfold PyVal.dictGet
    dsimp only
    rw [hc]
    dsimp only
    rw [if_pos (by simp [PyVal.truthy, hne2])]
  · intro hc
    rw [hline]
    unfold PyVal.dictGet
    dsimp only
    rw [hc]
    rfl
  · intro hc
    rw [hline]
    unfold PyVal.dictGet
    dsimp only
    rw [hc]
    dsimp only
    rw [if_neg (by simp [PyVal.truthy])]
  · intro st2 hstep hev
    rw [hline] at hstep
    unfold PyVal.dictGet at hstep
    dsimp only at hstep
    cases hc : d.lookup "content" with
    | none =>
      rw [hc] at hstep
      dsimp only at hstep
      cases hstep
      exact absurd rfl hev
    | some v =>
      rw [hc] at hstep
      dsimp only at hstep
      by_cases ht : v.truthy
      · rw [if_pos ht] at hstep
        cases v with
        | str c =>
          refine ⟨c, rfl, ?_⟩
          intro hceq
          subst hceq
          simp [PyVal.truthy] at ht
        | none => exact StepOut.noConfusion hstep
        | bool b => exact StepOut.noConfusion hstep
        | int n => exact StepOut.noConfusion hstep
        | list xs => exact StepOut.noConfusion hstep
        | dict fs => exact StepOut.noConfusion hstep
      · rw [if_neg ht] at hstep
        cases hstep
        exact absurd rfl hev

/-- Witness for C10 at a concrete delta without a `content` field. -/
theorem stream_chunk_iff_witness :
    process_stream_line c10loads st0 ("data: " ++ c10data) = StepOut.next st0 :=
  (stream_chunk_iff c10loads st0 c10data c10parsed [] (by decide) rfl rfl).2.1 rfl

end Sway
